import Mathlib

/-!
Shallow embedding of the two FastAPI services in this repository
(`llm_service/main.py` and `test_service/main.py`) and proofs about them.

Conventions of the embedding:
* Python strings are Lean `String`; `str.lower()` is `pyLower`,
  `str.strip()` is `pyStrip`, slicing `s[:n]` is `pyTake n s`, the
  substring test `a in b` is `strIn a b`, and `len` is `String.length`
  (both count code points).
* Raising `HTTPException(status_code, detail)` is returning
  `Except.error` of an `HTTPException` value.
* A `try/except HTTPException: raise / except Exception: 500` block is
  the function `catchHTTP500` applied to a body that can fail with a
  `PyError` (either an `HTTPException` or an arbitrary other exception
  carrying its message).
* Wall-clock readings (the request-id millisecond stamp, the ISO
  timestamp, the elapsed-time float) are explicit parameters.
* Outbound HTTP calls made by the test service are modelled by an
  explicit outcome value: either a response (status code, body text,
  parsed JSON payload) or a network-level failure carrying a message.
-/

/-- Python truncation `s[:n]`: the first `n` code points of `s`. -/
def pyTake (n : Nat) (s : String) : String := ⟨s.data.take n⟩

/-- Python `s.lower()`, character by character (the strings compared in
this code are ASCII, where Python lowercasing is exactly per-character
ASCII lowercasing). -/
def pyLower (s : String) : String := ⟨s.data.map Char.toLower⟩

/-- Python `s.strip()`: remove whitespace from both ends. -/
def pyStrip (s : String) : String :=
  ⟨((s.data.dropWhile Char.isWhitespace).reverse.dropWhile Char.isWhitespace).reverse⟩

/-- Python repr of a list of strings, as produced by an f-string
`\x7bthe_list\x7d`: single-quoted items, comma separated, in brackets. -/
def pyListRepr (xs : List String) : String :=
  "[" ++ String.intercalate ", " (xs.map (fun s => "\x27" ++ s ++ "\x27")) ++ "]"

/-- Boolean substring test on character lists: `listIn n h` is true when
`n` occurs contiguously inside `h`. It models the Python expression
`n in h` on strings. -/
def listIn (needle : List Char) : List Char → Bool
  | [] => needle.isEmpty
  | c :: rest => needle.isPrefixOf (c :: rest) || listIn needle rest

/-- Boolean substring test on strings, modelling Python `n in h`. -/
def strIn (needle haystack : String) : Bool := listIn needle.data haystack.data

namespace LlmService

/-- Request body of `POST /process` (Pydantic model `LLMRequest`). -/
structure LLMRequest where
  artifacts : List String
  platform : String
  model : String
  prompt : String
deriving DecidableEq, Repr

/-- A FastAPI `HTTPException`: a status code and a detail message. -/
structure HTTPException where
  status_code : Nat
  detail : String
deriving DecidableEq, Repr

/-- The metadata dictionary assembled by `process_llm_request`. -/
structure Metadata where
  platform_used : String
  model_used : String
  artifacts_count : Nat
  prompt_length : Nat
  response_length : Nat
deriving DecidableEq, Repr

/-- Response body of `POST /process` (Pydantic model `LLMResponse`). -/
structure LLMResponse where
  request_id : String
  status : String
  response_text : String
  metadata : Metadata
  timestamp : String
  processing_time_ms : Float

/-- The `LLMProcessor.supported_platforms` constant. -/
def supported_platforms : List String := ["huggingface", "openai", "local", "ollama"]

/-- The `LLMProcessor.supported_models` constant. -/
def supported_models : List String := ["llama", "deepseek", "gpt", "mistral", "phi"]

/-- Detail message of the platform rejection (f-string on line 51). -/
def platformErrDetail (platform : String) : String :=
  "Plataforma \x27" ++ platform ++ "\x27 não suportada. Plataformas suportadas: " ++
    pyListRepr supported_platforms

/-- Detail message of the model rejection (f-string on line 57). -/
def modelErrDetail (model : String) : String :=
  "Modelo \x27" ++ model ++ "\x27 não suportado. Modelos suportados: " ++
    pyListRepr supported_models

/-- Detail message of the blank-prompt rejection (line 61). -/
def promptErrDetail : String := "Prompt não pode estar vazio"

/-- Embedding of `LLMProcessor.validate_request` (lines 46–63): platform
membership check, then model substring check, then non-blank prompt
check; the first failing check raises a 400 `HTTPException`. -/
def validate_request (r : LLMRequest) : Except HTTPException Bool :=
  if ¬ (supported_platforms.contains (pyLower r.platform)) then
    .error ⟨400, platformErrDetail r.platform⟩
  else if ¬ (supported_models.any fun m => strIn m (pyLower r.model)) then
    .error ⟨400, modelErrDetail r.model⟩
  else if pyStrip r.prompt = "" then
    .error ⟨400, promptErrDetail⟩
  else
    .ok true

/-- One artifact line produced by the loop on lines 71–72:
`"\n- Artefato \x7bi+1\x7d: \x7bartifact[:100]\x7d..."`. -/
def artifactLine (i : Nat) (artifact : String) : String :=
  "\n- Artefato " ++ toString (i + 1) ++ ": " ++ pyTake 100 artifact ++ "..."

/-- Header of the artifact summary (line 70). -/
def artifactHeader (n : Nat) : String :=
  "Processando " ++ toString n ++ " artefato(s): "

/-- Tail line mentioning the artifacts beyond the third (line 75). -/
def remainderNote (n : Nat) : String :=
  "\n- ... e mais " ++ toString (n - 3) ++ " artefato(s)"

/-- Embedding of `LLMProcessor.process_artifacts` (lines 65–77). -/
def process_artifacts (artifacts : List String) : String :=
  if artifacts.isEmpty then "Nenhum artefato fornecido"
  else
    let summary :=
      artifactHeader artifacts.length ++
        String.join ((artifacts.take 3).enum.map fun p => artifactLine p.1 p.2)
    if artifacts.length > 3 then summary ++ remainderNote artifacts.length
    else summary

/-- Embedding of `LLMProcessor.generate_response` (lines 79–109): the
f-string template of lines 90–107, after its final `.strip()` removed the
leading newline and the trailing newline-plus-indentation. -/
def generate_response (r : LLMRequest) : String :=
  let artifact_context := process_artifacts r.artifacts
  "Resposta gerada pela LLM " ++ r.model ++ " na plataforma " ++ r.platform ++
    ":\n\nContexto dos Artefatos:\n" ++ artifact_context ++
    "\n\nPrompt Original: \"" ++ r.prompt ++
    "\"\n\nResposta Simulada:\nCom base nos artefatos fornecidos e no prompt \"" ++
    r.prompt ++
    "\", \na análise indica que o sistema deve considerar os seguintes aspectos:" ++
    "\n\n1. Análise dos artefatos fornecidos\n2. Aplicação do modelo " ++ r.model ++
    " para processamento\n3. Geração de resposta contextualizada" ++
    "\n\nEsta é uma resposta simulada. Em produção, seria gerada pelo modelo real " ++
    r.model ++ "."

/-- A Python exception as seen by a `try` block of either endpoint:
a FastAPI `HTTPException`, or any other exception carrying `str(e)`. -/
inductive PyError where
  | httpExc (e : HTTPException)
  | other (msg : String)
deriving DecidableEq, Repr

/-- Embedding of the `except HTTPException: raise / except Exception as e:
raise HTTPException(500, f"Erro interno do servidor: \x7bstr(e)\x7d")`
pattern shared by `process_llm_request` (llm_service lines 193–197) and
`test_llm_service` (test_service lines 193–197). -/
def catchHTTP500 {β : Type} (body : Except PyError β) : Except HTTPException β :=
  match body with
  | .ok v => .ok v
  | .error (.httpExc e) => .error e
  | .error (.other msg) => .error ⟨500, "Erro interno do servidor: " ++ msg⟩

/-- Body of the `try` block of `process_llm_request` (lines 160–191):
validation (whose `HTTPException` is a `PyError.httpExc`), response
generation, metadata assembly. The millisecond stamp taken at call
start, the end-time ISO string and the elapsed milliseconds are
parameters standing for the wall-clock readings. -/
def endpoint_body (r : LLMRequest) (start_ms : Nat) (end_iso : String)
    (elapsed_ms : Float) : Except PyError LLMResponse :=
  match validate_request r with
  | .error e => .error (.httpExc e)
  | .ok _ =>
    let response_text := generate_response r
    .ok
      { request_id := "req_" ++ toString start_ms
        status := "success"
        response_text := response_text
        metadata :=
          { platform_used := r.platform
            model_used := r.model
            artifacts_count := r.artifacts.length
            prompt_length := r.prompt.length
            response_length := response_text.length }
        timestamp := end_iso
        processing_time_ms := elapsed_ms }

/-- Embedding of the `POST /process` handler `process_llm_request`
(lines 154–197): the `try` body wrapped by the exception translation. -/
def process_llm_request (r : LLMRequest) (start_ms : Nat) (end_iso : String)
    (elapsed_ms : Float) : Except HTTPException LLMResponse :=
  catchHTTP500 (endpoint_body r start_ms end_iso elapsed_ms)

end LlmService

namespace TestService

open LlmService (HTTPException PyError catchHTTP500)

/-- Request body of `POST /test` (Pydantic model `TestRequest`). -/
structure TestRequest where
  artifacts : List String
  platform : String
  model : String
  prompt : String
deriving DecidableEq, Repr

/-- Response body of `POST /test` (Pydantic model `TestResponse`); the
upstream JSON payload type is a parameter `α`. -/
structure TestResponse (α : Type) where
  test_id : String
  llm_request : TestRequest
  llm_response : α
  status : String
  timestamp : String
  test_duration_ms : Float

/-- Response body of service B's `GET /health`. -/
structure HealthResponse where
  status : String
  timestamp : String
  llm_service_status : String
deriving DecidableEq, Repr

/-- Outcome of the outbound `requests.post` in `LLMClient.process_request`:
either an HTTP response (status code, body text, parsed JSON payload of
type `α`) or a `requests.exceptions.RequestException` carrying `str(e)`. -/
inductive UpstreamOutcome (α : Type) where
  | response (status_code : Nat) (text : String) (body : α)
  | networkFailure (msg : String)
deriving DecidableEq, Repr

/-- Embedding of `LLMClient.process_request` (lines 85–114): HTTP 200
returns the parsed body; any other status raises an `HTTPException`
mirroring the upstream status and quoting `response.text`; a
`RequestException` raises a 503 `HTTPException` quoting the failure. -/
def process_request {α : Type} (outcome : UpstreamOutcome α) :
    Except HTTPException α :=
  match outcome with
  | .response code text body =>
    if code = 200 then .ok body
    else .error ⟨code, "Erro do serviço LLM: " ++ text⟩
  | .networkFailure msg =>
    .error ⟨503, "Serviço LLM indisponível: " ++ msg⟩

/-- Body of the `try` block of `test_llm_service` (lines 172–191): the
upstream call (whose `HTTPException` is a `PyError.httpExc`), then the
assembly of the `TestResponse`. -/
def relay_body {α : Type} (req : TestRequest) (outcome : UpstreamOutcome α)
    (start_ms : Nat) (end_iso : String) (duration_ms : Float) :
    Except PyError (TestResponse α) :=
  match process_request outcome with
  | .error e => .error (.httpExc e)
  | .ok body =>
    .ok
      { test_id := "test_" ++ toString start_ms
        llm_request := req
        llm_response := body
        status := "success"
        timestamp := end_iso
        test_duration_ms := duration_ms }

/-- Embedding of the `POST /test` handler `test_llm_service`
(lines 166–197): the `try` body wrapped by the exception translation. -/
def test_llm_service {α : Type} (req : TestRequest) (outcome : UpstreamOutcome α)
    (start_ms : Nat) (end_iso : String) (duration_ms : Float) :
    Except HTTPException (TestResponse α) :=
  catchHTTP500 (relay_body req outcome start_ms end_iso duration_ms)

/-- Outcome of the outbound `requests.get` in `LLMClient.check_health`:
either a response with a status code, or any exception. -/
inductive HealthOutcome where
  | response (status_code : Nat)
  | failure (msg : String)
deriving DecidableEq, Repr

/-- Embedding of `LLMClient.check_health` (lines 54–61): true exactly on
HTTP 200; any exception yields false. Totality of this function is the
never-raises guarantee of the `try/except` block. -/
def check_health : HealthOutcome → Bool
  | .response code => code == 200
  | .failure _ => false

/-- Embedding of service B's `GET /health` handler `health_check`
(lines 119–127); the timestamp is a parameter. -/
def health_check (o : HealthOutcome) (ts : String) : HealthResponse :=
  let llm_healthy := check_health o
  { status := if llm_healthy then "healthy" else "degraded"
    timestamp := ts
    llm_service_status := if llm_healthy then "healthy" else "unhealthy" }

/-- A JSON value reachable under a key of the upstream metadata
responses, as Python sees it after `response.json()`: a list of strings
when the upstream is well typed, or any other value. -/
inductive JsonV where
  | arr (xs : List String)
  | num (n : Int)
  | str (s : String)
deriving DecidableEq, Repr

/-- Python `dict.get(key, default)` on a JSON object modelled as an
association list (first binding wins, as dict keys are unique). -/
def dictGet (d : List (String × JsonV)) (key : String) (dflt : JsonV) : JsonV :=
  match d.find? (fun p => p.1 == key) with
  | some p => p.2
  | none => dflt

/-- True exactly on list-valued JSON values. -/
def JsonV.isArr : JsonV → Bool
  | .arr _ => true
  | _ => false

/-- Outcome of the outbound `requests.get` of the metadata endpoints:
either a response (status code, parsed JSON object) or any exception. -/
inductive FetchOutcome where
  | response (status_code : Nat) (body : List (String × JsonV))
  | failure (msg : String)
deriving DecidableEq, Repr

/-- Embedding of `LLMClient.get_supported_models` (lines 63–72): on
HTTP 200 return `response.json().get("supported_models", [])`, on any
other status return `[]`, on any exception return `[]`. -/
def get_supported_models : FetchOutcome → JsonV
  | .response code body =>
    if code = 200 then dictGet body "supported_models" (.arr [])
    else .arr []
  | .failure _ => .arr []

/-- Embedding of `LLMClient.get_supported_platforms` (lines 74–83). -/
def get_supported_platforms : FetchOutcome → JsonV
  | .response code body =>
    if code = 200 then dictGet body "supported_platforms" (.arr [])
    else .arr []
  | .failure _ => .arr []

end TestService

/-! Helper lemmas about the Boolean substring test, bridging it to the
specification-level notion of occurrence (a decomposition of the
haystack as `x ++ needle ++ y`). -/

/-- Characterisation of `List.isPrefixOf`: `n` is a Boolean prefix of
`h` exactly when `h` extends `n` by some tail. -/
theorem isPrefixOf_eq_iff (n h : List Char) :
    n.isPrefixOf h = true ↔ ∃ t, h = n ++ t := by
  induction n generalizing h with
  | nil =>
    simp [List.isPrefixOf]
  | cons a as ih =>
    cases h with
    | nil => simp [List.isPrefixOf]
    | cons b bs =>
      simp only [List.isPrefixOf, Bool.and_eq_true, beq_iff_eq, ih,
        List.cons_append, List.cons.injEq]
      constructor
      · rintro ⟨rfl, t, rfl⟩
        exact ⟨t, rfl, rfl⟩
      · rintro ⟨t, rfl, rfl⟩
        exact ⟨rfl, t, rfl⟩

/-- Characterisation of `listIn`: `n` occurs in `h` exactly when `h`
splits as `x ++ n ++ y`. -/
theorem listIn_iff (n h : List Char) :
    listIn n h = true ↔ ∃ x y, h = x ++ n ++ y := by
  induction h with
  | nil =>
    constructor
    · intro hb
      cases n with
      | nil => exact ⟨[], [], rfl⟩
      | cons c cs => simp [listIn] at hb
    · rintro ⟨x, y, hxy⟩
      rcases List.append_eq_nil.mp hxy.symm with ⟨h1, h2⟩
      rcases List.append_eq_nil.mp h1 with ⟨h3, h4⟩
      subst h4
      rfl
  | cons c rest ih =>
    constructor
    · intro hb
      have hb2 : n.isPrefixOf (c :: rest) = true ∨ listIn n rest = true := by
        simpa [listIn] using hb
      rcases hb2 with hp | hr
      · rcases (isPrefixOf_eq_iff n (c :: rest)).mp hp with ⟨t, ht⟩
        exact ⟨[], t, by simp [ht]⟩
      · rcases ih.mp hr with ⟨x, y, hxy⟩
        exact ⟨c :: x, y, by simp [hxy]⟩
    · rintro ⟨x, y, hxy⟩
      have hgoal : n.isPrefixOf (c :: rest) = true ∨ listIn n rest = true := by
        cases x with
        | nil =>
          left
          exact (isPrefixOf_eq_iff n (c :: rest)).mpr ⟨y, by simpa using hxy⟩
        | cons x0 xs =>
          right
          have hx : rest = xs ++ n ++ y := by
            have h2 := hxy
            simp only [List.cons_append, List.append_assoc, List.cons.injEq] at h2
            simpa [List.append_assoc] using h2.2
          exact ih.mpr ⟨xs, y, hx⟩
      simpa [listIn] using hgoal

/-- Characterisation of `strIn` at the string level. -/
theorem strIn_iff (n h : String) :
    strIn n h = true ↔ ∃ x y : String, h = x ++ n ++ y := by
  constructor
  · intro hb
    rcases (listIn_iff n.data h.data).mp hb with ⟨x, y, hxy⟩
    refine ⟨⟨x⟩, ⟨y⟩, String.ext ?_⟩
    simpa [String.data_append] using hxy
  · rintro ⟨x, y, rfl⟩
    exact (listIn_iff _ _).mpr ⟨x.data, y.data, by simp [String.data_append]⟩

/-- A needle occurs in any string that sandwiches it. -/
theorem strIn_sandwich (x n y : String) : strIn n (x ++ n ++ y) = true :=
  (strIn_iff n _).mpr ⟨x, y, rfl⟩

/-- Occurrence is preserved by extending the haystack on the left. -/
theorem strIn_append_of_right (n x y : String) (hb : strIn n y = true) :
    strIn n (x ++ y) = true := by
  rcases (strIn_iff n y).mp hb with ⟨a, b, rfl⟩
  exact (strIn_iff n _).mpr ⟨x ++ a, b, by simp [String.append_assoc]⟩

/-- Occurrence is preserved by extending the haystack on the right. -/
theorem strIn_append_of_left (n x y : String) (hb : strIn n x = true) :
    strIn n (x ++ y) = true := by
  rcases (strIn_iff n x).mp hb with ⟨a, b, rfl⟩
  exact (strIn_iff n _).mpr ⟨a, b ++ y, by simp [String.append_assoc]⟩

/-- C1: for every request whose platform string is not a case-insensitive
member of the allow-list, `validate_request` rejects with a 400 error
whose detail names the rejected platform value and mentions each of the
four supported platforms, whatever the model and prompt fields are. -/
theorem validate_rejects_unsupported_platform (r : LlmService.LLMRequest)
    (hp : LlmService.supported_platforms.contains (pyLower r.platform) = false) :
    ∃ e : LlmService.HTTPException,
      LlmService.validate_request r = .error e ∧
      e.status_code = 400 ∧
      (∃ x y : String, e.detail = x ++ r.platform ++ y) ∧
      (∀ p ∈ LlmService.supported_platforms,
        ∃ x y : String, e.detail = x ++ p ++ y) := by
  refine ⟨⟨400, LlmService.platformErrDetail r.platform⟩, ?_, rfl, ?_, ?_⟩
  · have hp2 : pyLower r.platform ∉ LlmService.supported_platforms := by
      simpa using hp
    simp [LlmService.validate_request, hp2]
  · refine ⟨"Plataforma \x27",
      "\x27 não suportada. Plataformas suportadas: " ++
        pyListRepr LlmService.supported_platforms, ?_⟩
    simp [LlmService.platformErrDetail, String.append_assoc]
  · intro p hp2
    have hrep : strIn p (pyListRepr LlmService.supported_platforms) = true := by
      simp only [LlmService.supported_platforms, List.mem_cons,
        List.not_mem_nil, or_false] at hp2
      rcases hp2 with rfl | rfl | rfl | rfl <;> decide
    have h2 : strIn p (LlmService.platformErrDetail r.platform) = true := by
      have h3 := strIn_append_of_right p
        ("Plataforma \x27" ++ r.platform ++
          "\x27 não suportada. Plataformas suportadas: ")
        (pyListRepr LlmService.supported_platforms) hrep
      simpa [LlmService.platformErrDetail, String.append_assoc] using h3
    exact (strIn_iff p _).mp h2

/-- Witness for C1 at the unsupported platform "aws". -/
theorem validate_rejects_unsupported_platform_witness :
    LlmService.supported_platforms.contains (pyLower "aws") = false ∧
    (∃ e : LlmService.HTTPException,
      LlmService.validate_request ⟨[], "aws", "llama", "hi"⟩ = .error e ∧
      e.status_code = 400 ∧
      (∃ x y : String, e.detail = x ++ "aws" ++ y) ∧
      (∀ p ∈ LlmService.supported_platforms,
        ∃ x y : String, e.detail = x ++ p ++ y)) :=
  ⟨by decide,
    validate_rejects_unsupported_platform ⟨[], "aws", "llama", "hi"⟩ (by decide)⟩

/-- C2: the artifact section states that no artifacts were supplied when
the list is empty; otherwise it is the header followed by one inline
summary per artifact among the first three (at most 3 summaries, each
truncated to at most 100 characters and followed by the ellipsis
marker), followed — exactly when there are more than 3 artifacts — by a
note mentioning the `count − 3` remaining ones. -/
theorem process_artifacts_summary (artifacts : List String) :
    (artifacts = [] →
      LlmService.process_artifacts artifacts = "Nenhum artefato fornecido") ∧
    (artifacts ≠ [] →
      (artifacts.take 3).length ≤ 3 ∧
      (∀ a ∈ artifacts, (pyTake 100 a).length ≤ 100) ∧
      LlmService.process_artifacts artifacts =
        LlmService.artifactHeader artifacts.length ++
          String.join ((artifacts.take 3).enum.map fun p =>
            LlmService.artifactLine p.1 p.2) ++
          (if 3 < artifacts.length then LlmService.remainderNote artifacts.length
           else "")) := by
  constructor
  · intro h
    subst h
    rfl
  · intro h
    refine ⟨List.length_take_le 3 artifacts, ?_, ?_⟩
    · intro a _
      have heq : (pyTake 100 a).length = (a.data.take 100).length := rfl
      rw [heq]
      exact List.length_take_le 100 a.data
    · have hne : artifacts.isEmpty = false := by simp [h]
      by_cases h3 : 3 < artifacts.length
      · simp [LlmService.process_artifacts, hne, h3, String.append_assoc]
      · simp [LlmService.process_artifacts, hne, h3, String.append_empty]

/-- Witness for C2 on the empty list and on a four-element list. -/
theorem process_artifacts_summary_witness :
    LlmService.process_artifacts [] = "Nenhum artefato fornecido" ∧
    ((["a", "b", "c", "d"].take 3).length ≤ 3 ∧
      (∀ a ∈ (["a", "b", "c", "d"] : List String), (pyTake 100 a).length ≤ 100) ∧
      LlmService.process_artifacts ["a", "b", "c", "d"] =
        LlmService.artifactHeader 4 ++
          String.join (((["a", "b", "c", "d"] : List String).take 3).enum.map fun p =>
            LlmService.artifactLine p.1 p.2) ++
          LlmService.remainderNote 4) :=
  ⟨(process_artifacts_summary []).1 rfl,
    (process_artifacts_summary ["a", "b", "c", "d"]).2 (by decide)⟩

/-- C5 counterexample: for the whitespace-only prompt "\t" (with valid
platform and model), `validate_request` rejects with the fixed message
"Prompt não pode estar vazio", which neither contains the offending
value nor any list of allowed values: the claim that the message
includes the offending value is false. -/
theorem blank_prompt_message_counterexample :
    LlmService.validate_request ⟨[], "openai", "gpt-4", "\t"⟩ =
      .error ⟨400, "Prompt não pode estar vazio"⟩ ∧
    strIn "\t" "Prompt não pode estar vazio" = false ∧
    ¬ ∃ x y : String, ("Prompt não pode estar vazio" : String) = x ++ "\t" ++ y := by
  refine ⟨rfl, rfl, ?_⟩
  rintro ⟨x, y, hxy⟩
  have hb : strIn "\t" "Prompt não pode estar vazio" = true :=
    (strIn_iff _ _).mpr ⟨x, y, hxy⟩
  exact absurd hb (by decide)

/-- C5 (amended): for every request with valid platform and model whose
prompt is blank or whitespace-only, `validate_request` rejects with a
400 error carrying the fixed message "Prompt não pode estar vazio"
(which names neither the offending value nor a list of allowed values);
for every non-blank prompt the prompt check passes. -/
theorem validate_blank_prompt (r : LlmService.LLMRequest)
    (hp : LlmService.supported_platforms.contains (pyLower r.platform) = true)
    (hm : (LlmService.supported_models.any fun m => strIn m (pyLower r.model)) = true) :
    (pyStrip r.prompt = "" →
      LlmService.validate_request r = .error ⟨400, LlmService.promptErrDetail⟩) ∧
    (pyStrip r.prompt ≠ "" →
      LlmService.validate_request r = .ok true) := by
  have hcore : LlmService.validate_request r =
      (if pyStrip r.prompt = "" then
        .error ⟨400, LlmService.promptErrDetail⟩
       else .ok true) := by
    unfold LlmService.validate_request
    rw [if_neg (by simpa using hp), if_neg (by simpa using hm)]
  constructor
  · intro hb
    rw [hcore, if_pos hb]
  · intro hb
    rw [hcore, if_neg hb]

/-- Witness for C5 (amended) at prompt " " (rejected) and "ok" (passes). -/
theorem validate_blank_prompt_witness :
    LlmService.supported_platforms.contains (pyLower "openai") = true ∧
    (LlmService.supported_models.any fun m => strIn m (pyLower "gpt-4")) = true ∧
    LlmService.validate_request ⟨[], "openai", "gpt-4", " "⟩ =
      .error ⟨400, LlmService.promptErrDetail⟩ ∧
    LlmService.validate_request ⟨[], "openai", "gpt-4", "ok"⟩ = .ok true :=
  ⟨by decide, by decide,
    (validate_blank_prompt ⟨[], "openai", "gpt-4", " "⟩ (by decide) (by decide)).1 rfl,
    (validate_blank_prompt ⟨[], "openai", "gpt-4", "ok"⟩ (by decide) (by decide)).2
      (by decide)⟩

/-- C6: for every request with a valid platform, the model check rejects
(with the 400 model message) exactly when no allow-listed model name
occurs case-insensitively as a substring of the model string; whenever
one occurs, validation proceeds past the model check, i.e. the outcome
is success or the blank-prompt rejection. -/
theorem validate_model_substring (r : LlmService.LLMRequest)
    (hp : LlmService.supported_platforms.contains (pyLower r.platform) = true) :
    ((∀ m ∈ LlmService.supported_models,
        ¬ ∃ x y : String, pyLower r.model = x ++ m ++ y) →
      LlmService.validate_request r =
        .error ⟨400, LlmService.modelErrDetail r.model⟩) ∧
    ((∃ m ∈ LlmService.supported_models,
        ∃ x y : String, pyLower r.model = x ++ m ++ y) →
      LlmService.validate_request r = .ok true ∨
      LlmService.validate_request r = .error ⟨400, LlmService.promptErrDetail⟩) := by
  constructor
  · intro hnone
    have hany : (LlmService.supported_models.any fun m =>
        strIn m (pyLower r.model)) = false := by
      rw [List.any_eq_false]
      intro m hm hIn
      exact hnone m hm ((strIn_iff _ _).mp hIn)
    unfold LlmService.validate_request
    rw [if_neg (by simpa using hp), if_pos (by simp [hany])]
  · intro hsome
    have hany : (LlmService.supported_models.any fun m =>
        strIn m (pyLower r.model)) = true := by
      rw [List.any_eq_true]
      rcases hsome with ⟨m, hm, x, y, hxy⟩
      exact ⟨m, hm, (strIn_iff _ _).mpr ⟨x, y, hxy⟩⟩
    unfold LlmService.validate_request
    rw [if_neg (by simpa using hp), if_neg (by simp [hany])]
    by_cases hb : pyStrip r.prompt = ""
    · right
      rw [if_pos hb]
    · left
      rw [if_neg hb]

/-- Witness for C6 at the rejected model "resnet" and the accepted
model "llama-7b". -/
theorem validate_model_substring_witness :
    LlmService.validate_request ⟨[], "local", "resnet", "hi"⟩ =
      .error ⟨400, LlmService.modelErrDetail "resnet"⟩ ∧
    (LlmService.validate_request ⟨[], "local", "llama-7b", "hi"⟩ = .ok true ∨
     LlmService.validate_request ⟨[], "local", "llama-7b", "hi"⟩ =
       .error ⟨400, LlmService.promptErrDetail⟩) :=
  ⟨(validate_model_substring ⟨[], "local", "resnet", "hi"⟩ (by decide)).1
      (by
        intro m hm hex
        rcases hex with ⟨x, y, hxy⟩
        have hall : ∀ n ∈ LlmService.supported_models,
            strIn n (pyLower "resnet") = false := by decide
        have hb : strIn m (pyLower "resnet") = true :=
          (strIn_iff _ _).mpr ⟨x, y, hxy⟩
        rw [hall m hm] at hb
        exact Bool.false_ne_true hb),
    (validate_model_substring ⟨[], "local", "llama-7b", "hi"⟩ (by decide)).2
      ⟨"llama", by decide, (strIn_iff _ _).mp (by decide)⟩⟩

/-- C4: a validation error propagates through the `POST /process` handler
unchanged — same status code (400, in particular not 500) and same
message — while any non-validation exception is surfaced as a 500 error
whose detail includes the failure message. -/
theorem endpoint_error_propagation (r : LlmService.LLMRequest)
    (e : LlmService.HTTPException) (start_ms : Nat) (end_iso : String)
    (elapsed_ms : Float)
    (hv : LlmService.validate_request r = .error e) :
    (LlmService.process_llm_request r start_ms end_iso elapsed_ms = .error e ∧
      e.status_code = 400 ∧ e.status_code ≠ 500) ∧
    (∀ msg : String,
      LlmService.catchHTTP500 (β := LlmService.LLMResponse) (.error (.other msg)) =
        .error ⟨500, "Erro interno do servidor: " ++ msg⟩ ∧
      ∃ x y : String,
        ("Erro interno do servidor: " ++ msg : String) = x ++ msg ++ y) := by
  have h400 : e.status_code = 400 := by
    unfold LlmService.validate_request at hv
    split at hv
    · cases hv
      rfl
    · split at hv
      · cases hv
        rfl
      · split at hv
        · cases hv
          rfl
        · cases hv
  constructor
  · refine ⟨?_, h400, by rw [h400]; decide⟩
    unfold LlmService.process_llm_request LlmService.endpoint_body
    rw [hv]
    rfl
  · intro msg
    exact ⟨rfl, "Erro interno do servidor: ", "", (String.append_empty _).symm⟩

/-- Witness for C4 at the invalid platform "aws" and the internal
failure message "boom". -/
theorem endpoint_error_propagation_witness :
    LlmService.validate_request ⟨[], "aws", "llama", "hi"⟩ =
      .error ⟨400, LlmService.platformErrDetail "aws"⟩ ∧
    (LlmService.process_llm_request ⟨[], "aws", "llama", "hi"⟩ 0 "t" 0.0 =
        .error ⟨400, LlmService.platformErrDetail "aws"⟩ ∧
      ((400 : Nat) = 400 ∧ (400 : Nat) ≠ 500)) ∧
    (LlmService.catchHTTP500 (β := LlmService.LLMResponse) (.error (.other "boom")) =
        .error ⟨500, "Erro interno do servidor: boom"⟩ ∧
      ∃ x y : String, ("Erro interno do servidor: boom" : String) = x ++ "boom" ++ y) :=
  ⟨rfl,
    ⟨((endpoint_error_propagation ⟨[], "aws", "llama", "hi"⟩
        ⟨400, LlmService.platformErrDetail "aws"⟩ 0 "t" 0.0 rfl).1).1,
      rfl, by decide⟩,
    (endpoint_error_propagation ⟨[], "aws", "llama", "hi"⟩
        ⟨400, LlmService.platformErrDetail "aws"⟩ 0 "t" 0.0 rfl).2 "boom"⟩

set_option maxHeartbeats 2000000 in
/-- C7: every request that passes validation yields a success result:
status "success", request id "req_" followed by the call-start
millisecond stamp, and metadata whose artifact count, prompt length and
response length equal the corresponding measures of the request and of
the returned response text. -/
theorem process_success_fields (r : LlmService.LLMRequest) (start_ms : Nat)
    (end_iso : String) (elapsed_ms : Float)
    (hv : LlmService.validate_request r = .ok true) :
    ∃ resp : LlmService.LLMResponse,
      LlmService.process_llm_request r start_ms end_iso elapsed_ms = .ok resp ∧
      resp.status = "success" ∧
      resp.request_id = "req_" ++ toString start_ms ∧
      resp.metadata.artifacts_count = r.artifacts.length ∧
      resp.metadata.prompt_length = r.prompt.length ∧
      resp.metadata.response_length = resp.response_text.length := by
  refine ⟨⟨"req_" ++ toString start_ms, "success", LlmService.generate_response r,
    ⟨r.platform, r.model, r.artifacts.length, r.prompt.length,
      (LlmService.generate_response r).length⟩, end_iso, elapsed_ms⟩,
    ?_, rfl, rfl, rfl, rfl, rfl⟩
  unfold LlmService.process_llm_request LlmService.endpoint_body
  rw [hv]
  rfl

/-- Witness for C7 on end-to-end scenario 1 (`platform="huggingface"`,
`model="llama-7b"`, `prompt="Summarize"`, no artifacts). -/
theorem process_success_fields_witness :
    LlmService.validate_request ⟨[], "huggingface", "llama-7b", "Summarize"⟩ =
      .ok true ∧
    (∃ resp : LlmService.LLMResponse,
      LlmService.process_llm_request ⟨[], "huggingface", "llama-7b", "Summarize"⟩
          0 "t" 0.0 = .ok resp ∧
      resp.status = "success" ∧
      resp.request_id = "req_0" ∧
      resp.metadata.artifacts_count = 0 ∧
      resp.metadata.prompt_length = 9 ∧
      resp.metadata.response_length = resp.response_text.length) :=
  ⟨rfl,
    process_success_fields ⟨[], "huggingface", "llama-7b", "Summarize"⟩ 0 "t" 0.0 rfl⟩

/-- C9: for every request that passes validation, the metadata fields
`platform_used` and `model_used` are the submitted platform and model
strings themselves — original casing preserved, no normalisation — even
though validation compared lowercased copies. -/
theorem metadata_preserves_casing (r : LlmService.LLMRequest) (start_ms : Nat)
    (end_iso : String) (elapsed_ms : Float)
    (hv : LlmService.validate_request r = .ok true) :
    ∃ resp : LlmService.LLMResponse,
      LlmService.process_llm_request r start_ms end_iso elapsed_ms = .ok resp ∧
      resp.metadata.platform_used = r.platform ∧
      resp.metadata.model_used = r.model := by
  unfold LlmService.process_llm_request LlmService.endpoint_body
  rw [hv]
  exact ⟨_, rfl, rfl, rfl⟩

/-- Witness for C9 at the mixed-case platform "HuggingFace" and model
"LLaMA-7b", which pass validation only after lowercasing. -/
theorem metadata_preserves_casing_witness :
    LlmService.validate_request ⟨[], "HuggingFace", "LLaMA-7b", "hi"⟩ = .ok true ∧
    (∃ resp : LlmService.LLMResponse,
      LlmService.process_llm_request ⟨[], "HuggingFace", "LLaMA-7b", "hi"⟩
          0 "t" 0.0 = .ok resp ∧
      resp.metadata.platform_used = "HuggingFace" ∧
      resp.metadata.model_used = "LLaMA-7b") :=
  ⟨rfl, metadata_preserves_casing ⟨[], "HuggingFace", "LLaMA-7b", "hi"⟩ 0 "t" 0.0 rfl⟩

/-- C3: `process_request` returns the parsed payload exactly on HTTP 200;
on a non-200 answer it raises an error carrying the upstream status code
and quoting the upstream body text; on a network-level failure it raises
a 503 error quoting the failure description; and the `POST /test`
handler re-raises any such error unchanged instead of converting it to a
generic 500. -/
theorem upstream_error_classification {α : Type} (code : Nat) (t m : String)
    (b : α) (req : TestService.TestRequest) (start_ms : Nat) (end_iso : String)
    (duration_ms : Float) (hcode : code ≠ 200) :
    TestService.process_request (.response 200 t b) = .ok b ∧
    (TestService.process_request (.response code t b) =
        .error ⟨code, "Erro do serviço LLM: " ++ t⟩ ∧
      ∃ x y : String, ("Erro do serviço LLM: " ++ t : String) = x ++ t ++ y) ∧
    (TestService.process_request (α := α) (.networkFailure m) =
        .error ⟨503, "Serviço LLM indisponível: " ++ m⟩ ∧
      ∃ x y : String, ("Serviço LLM indisponível: " ++ m : String) = x ++ m ++ y) ∧
    (∀ (o : TestService.UpstreamOutcome α) (e : LlmService.HTTPException),
      TestService.process_request o = .error e →
      TestService.test_llm_service req o start_ms end_iso duration_ms =
        .error e) := by
  refine ⟨rfl, ⟨?_, ?_⟩, ⟨rfl, ?_⟩, ?_⟩
  · simp only [TestService.process_request]
    rw [if_neg hcode]
  · exact ⟨"Erro do serviço LLM: ", "", (String.append_empty _).symm⟩
  · exact ⟨"Serviço LLM indisponível: ", "", (String.append_empty _).symm⟩
  · intro o e he
    unfold TestService.test_llm_service TestService.relay_body
    rw [he]
    rfl

/-- Witness for C3 with payload type `Nat`, upstream status 404 and a
connection failure. -/
theorem upstream_error_classification_witness :
    (404 : Nat) ≠ 200 ∧
    TestService.process_request (.response 200 "ok" (7 : Nat)) = .ok 7 ∧
    TestService.process_request (.response 404 "bad request" (7 : Nat)) =
      .error ⟨404, "Erro do serviço LLM: bad request"⟩ ∧
    TestService.process_request (α := Nat) (.networkFailure "connection refused") =
      .error ⟨503, "Serviço LLM indisponível: connection refused"⟩ ∧
    TestService.test_llm_service ⟨[], "p", "m", "pr"⟩
        (.networkFailure "connection refused" : TestService.UpstreamOutcome Nat)
        0 "t" 0.0 =
      .error ⟨503, "Serviço LLM indisponível: connection refused"⟩ := by
  have h := upstream_error_classification (α := Nat) 404 "bad request"
    "connection refused" 7 ⟨[], "p", "m", "pr"⟩ 0 "t" 0.0 (by decide)
  exact ⟨by decide, h.1, h.2.1.1, h.2.2.1.1,
    h.2.2.2 (.networkFailure "connection refused")
      ⟨503, "Serviço LLM indisponível: connection refused"⟩ rfl⟩

/-- C8: `check_health` is a total function (the embedding of a handler
that never raises) returning true exactly when the upstream answered
HTTP 200, and service B's health endpoint reports healthy/healthy when
it returns true and degraded/unhealthy when it returns false. -/
theorem check_health_classification (o : TestService.HealthOutcome) (ts : String) :
    (TestService.check_health o = true ↔ o = .response 200) ∧
    (TestService.check_health o = true →
      TestService.health_check o ts = ⟨"healthy", ts, "healthy"⟩) ∧
    (TestService.check_health o = false →
      TestService.health_check o ts = ⟨"degraded", ts, "unhealthy"⟩) := by
  refine ⟨?_, ?_, ?_⟩
  · cases o with
    | response c => simp [TestService.check_health]
    | failure m => simp [TestService.check_health]
  · intro h
    simp [TestService.health_check, h]
  · intro h
    simp [TestService.health_check, h]

/-- Witness for C8 at a 200 upstream answer and at a failure. -/
theorem check_health_classification_witness :
    (TestService.check_health (.response 200) = true ↔
      TestService.HealthOutcome.response 200 = .response 200) ∧
    TestService.health_check (.response 200) "t" = ⟨"healthy", "t", "healthy"⟩ ∧
    TestService.health_check (.failure "down") "t" =
      ⟨"degraded", "t", "unhealthy"⟩ :=
  ⟨(check_health_classification (.response 200) "t").1,
    (check_health_classification (.response 200) "t").2.1 rfl,
    (check_health_classification (.failure "down") "t").2.2 rfl⟩

/-- C10 counterexample: on HTTP 200 with the expected key bound to a
non-list JSON value, `get_supported_models` returns that value
unchanged, so it does not always return a list as the claim states. -/
theorem metadata_fetch_nonlist_counterexample :
    TestService.get_supported_models
        (.response 200 [("supported_models", .num 5)]) = .num 5 ∧
    TestService.JsonV.isArr (.num 5) = false :=
  ⟨rfl, rfl⟩

/-- C10 (amended): `get_supported_models` / `get_supported_platforms`
return the empty list on a non-200 status, on any exception, and on a
200 answer whose JSON body lacks the expected key; when the key is
present they return the stored value unchanged (a list exactly when the
upstream stored a list); being total functions, they never raise. -/
theorem metadata_fetch_fallbacks (code : Nat)
    (body : List (String × TestService.JsonV)) (m : String)
    (kv : String × TestService.JsonV) (hcode : code ≠ 200) :
    (body.find? (fun p => p.1 == "supported_models") = none →
      TestService.get_supported_models (.response 200 body) = .arr []) ∧
    (body.find? (fun p => p.1 == "supported_models") = some kv →
      TestService.get_supported_models (.response 200 body) = kv.2) ∧
    TestService.get_supported_models (.response code body) = .arr [] ∧
    TestService.get_supported_models (.failure m) = .arr [] ∧
    (body.find? (fun p => p.1 == "supported_platforms") = none →
      TestService.get_supported_platforms (.response 200 body) = .arr []) ∧
    (body.find? (fun p => p.1 == "supported_platforms") = some kv →
      TestService.get_supported_platforms (.response 200 body) = kv.2) ∧
    TestService.get_supported_platforms (.response code body) = .arr [] ∧
    TestService.get_supported_platforms (.failure m) = .arr [] := by
  refine ⟨?_, ?_, ?_, rfl, ?_, ?_, ?_, rfl⟩
  · intro h
    simp [TestService.get_supported_models, TestService.dictGet, h]
  · intro h
    simp [TestService.get_supported_models, TestService.dictGet, h]
  · simp [TestService.get_supported_models, hcode]
  · intro h
    simp [TestService.get_supported_platforms, TestService.dictGet, h]
  · intro h
    simp [TestService.get_supported_platforms, TestService.dictGet, h]
  · simp [TestService.get_supported_platforms, hcode]

/-- Witness for C10 (amended) on concrete bodies with and without the
keys, a 404 status, and an exception. -/
theorem metadata_fetch_fallbacks_witness :
    TestService.get_supported_models (.response 200 [("other", .num 1)]) =
      .arr [] ∧
    TestService.get_supported_models
        (.response 200 [("supported_models", .arr ["llama"])]) =
      .arr ["llama"] ∧
    TestService.get_supported_models (.response 404 [("other", .num 1)]) =
      .arr [] ∧
    TestService.get_supported_models (.failure "timeout") = .arr [] ∧
    TestService.get_supported_platforms
        (.response 200 [("supported_platforms", .arr ["local"])]) =
      .arr ["local"] := by
  have h1 := metadata_fetch_fallbacks 404 [("other", .num 1)] "timeout"
    ("supported_models", .arr ["llama"]) (by decide)
  have h2 := metadata_fetch_fallbacks 404
    [("supported_models", .arr ["llama"])] "timeout"
    ("supported_models", .arr ["llama"]) (by decide)
  have h3 := metadata_fetch_fallbacks 404
    [("supported_platforms", .arr ["local"])] "timeout"
    ("supported_platforms", .arr ["local"]) (by decide)
  exact ⟨h1.1 (by decide), h2.2.1 (by decide), h1.2.2.1, h1.2.2.2.1,
    h3.2.2.2.2.2.1 (by decide)⟩
